import Mathlib

/-!
Verification development for the career-assistant chat application.

The Python sources are shallowly embedded: pure functions become Lean
functions over `String`/`List Char`, the per-user persisted record becomes
the structure `Memory`, effectful operations (LLM gateway calls, job-site
fetches) are represented by explicit outcome/action datatypes so that the
theorems can speak about which external calls a code path performs.
-/

namespace CareerAgent

/-! ## Python string primitives

Executable models of the Python `str` operations the sources use.
They operate on `String.data` (`List Char`), matching Python's
character-based indexing and slicing. -/

/-- Model of Python `str.lower()` (ASCII case folding, which is all the
sources rely on). -/
def pyLower (s : String) : String :=
  String.mk (s.data.map Char.toLower)

/-- Model of Python `str.strip()`: drop whitespace from both ends. -/
def pyStrip (s : String) : String :=
  String.mk (((s.data.dropWhile Char.isWhitespace).reverse.dropWhile
    Char.isWhitespace).reverse)

/-- Model of Python `s[:n]` on strings (slice of the first `n` characters). -/
def pyTakeStr (n : Nat) (s : String) : String :=
  String.mk (s.data.take n)

/-- Model of Python `lst[-n:]`: the last `n` elements (the whole list when it
is shorter than `n`). -/
def pyLastN {α : Type} (n : Nat) (l : List α) : List α :=
  l.drop (l.length - n)

/-- Is `pat` a (character-wise) prefix of `l`?  Executable helper used by the
substring test. -/
def isPrefixList : List Char → List Char → Bool
  | [], _ => true
  | _ :: _, [] => false
  | a :: as, b :: bs => a = b && isPrefixList as bs

/-- Is `pat` a contiguous substring of `l`?  Implements the semantics of
Python's `pat in s` for strings. -/
def isInfixList (pat : List Char) : List Char → Bool
  | [] => pat.isEmpty
  | l@(_ :: rest) => isPrefixList pat l || isInfixList pat rest

/-- Model of Python `pat in s` (substring containment). -/
def pyContains (s pat : String) : Bool :=
  isInfixList pat.data s.data

/-- Model of Python `s.startswith(pat)`. -/
def pyStartsWith (s pat : String) : Bool :=
  isPrefixList pat.data s.data

/-- Model of Python `s.endswith(pat)`. -/
def pyEndsWith (s pat : String) : Bool :=
  isPrefixList pat.data.reverse s.data.reverse

/-- Accumulator-based splitter behind `pyWords`; `acc` holds the (reversed)
characters of the word currently being read. -/
def pyWordsAux (acc : List Char) : List Char → List (List Char)
  | [] => if acc.isEmpty then [] else [acc.reverse]
  | c :: cs =>
    if c.isWhitespace then
      if acc.isEmpty then pyWordsAux [] cs
      else acc.reverse :: pyWordsAux [] cs
    else pyWordsAux (c :: acc) cs

/-- Model of Python `s.split()` with no argument: split on runs of
whitespace, discarding empty pieces. -/
def pyWords (l : List Char) : List (List Char) :=
  pyWordsAux [] l

/-- Join a list of words with single spaces (Python `" ".join(words)`). -/
def joinWords : List (List Char) → List Char
  | [] => []
  | [w] => w
  | w :: ws => w ++ ' ' :: joinWords ws

/-- Model of Python `" ".join(s.split())`: whitespace normalization as done
in `jobs.py` for job descriptions. -/
def normalizeWS (s : String) : String :=
  String.mk (joinWords (pyWords s.data))

/-- Fuel-indexed worker for `pyReplace`; the fuel starts at the length of the
subject string, which bounds the number of scanning steps. -/
def replaceAux (pat repl : List Char) : Nat → List Char → List Char
  | _, [] => []
  | 0, l => l
  | Nat.succ n, c :: cs =>
    if pat.isEmpty then c :: cs
    else if isPrefixList pat (c :: cs) then
      repl ++ replaceAux pat repl n ((c :: cs).drop pat.length)
    else c :: replaceAux pat repl n cs

/-- Model of Python `s.replace(pat, repl)`: left-to-right, non-overlapping
replacement of every occurrence. -/
def pyReplace (s pat repl : String) : String :=
  String.mk (replaceAux pat.data repl.data s.data.length s.data)

/-- Model of Python `line.split(sep)` for a one-character separator, keeping
empty fields, as `String.splitOn` does. -/
def pySplitOn (s sep : String) : List String :=
  s.splitOn sep

/-! ## State Store (`backend/memory.py`, `memory.py`)

The persisted per-user record.  The Python record is a JSON dict; the
sources always create and maintain the full field set (via
`create_empty_memory` / `ensure_memory_structure`), so we embed it as a
structure with one field per schema key.  `datetime.utcnow()` is an
external input and is passed in as an explicit `now : String` argument. -/

/-- One entry of the `history` list.  The Python dicts carry a `type` tag
distinguishing user messages from assistant responses; the two constructors
model the two shapes. -/
inductive HistEntry where
  | userMsg (time text : String)
  | assistantMsg (time text : String)
deriving DecidableEq

/-- One entry of `conversation_pairs`. -/
structure ConvPair where
  user : String
  assistant : String
  timestamp : String
deriving DecidableEq

/-- The per-user session record (`create_empty_memory` schema in
`backend/memory.py`).  The `interview` sub-dict is flattened into three
fields. -/
structure Memory where
  history : List HistEntry := []
  conversation_pairs : List ConvPair := []
  resume_text : String := ""
  resume_uploaded : Bool := false
  resume_file : String := ""
  star_mode : Bool := false
  last_response : String := ""
  created_at : String := ""
  updated_at : String := ""
  interview_index : Nat := 0
  interview_answers : List String := []
  interview_started_at : Option String := none
deriving DecidableEq

/-- `create_empty_memory()` from `backend/memory.py`. -/
def create_empty_memory (now : String) : Memory :=
  { created_at := now, updated_at := now }

/-- `ensure_memory_structure` from `backend/memory.py`.  On the typed record
every schema key is always present, so the field-filling loop is the
identity; the observable effect is the refresh of `updated_at`. -/
def ensure_memory_structure (mem : Memory) (now : String) : Memory :=
  { mem with updated_at := now }

/-- `MAX_HISTORY_LENGTH` from `backend/memory.py`. -/
def MAX_HISTORY_LENGTH : Nat := 50

/-- `MAX_CONVERSATION_PAIRS` from `backend/memory.py`. -/
def MAX_CONVERSATION_PAIRS : Nat := 20

/-- `add_to_history` from `backend/memory.py`, as a pure state transform on
the loaded record (the surrounding `load_memory`/`save_memory` round trip is
modelled separately by the store operations below). -/
def add_to_history (mem : Memory) (user_input : String)
    (response : Option String) (now : String) : Memory :=
  let h1 := mem.history ++ [HistEntry.userMsg now user_input]
  let h2 := match response with
    | some r => h1 ++ [HistEntry.assistantMsg now (pyTakeStr 500 r)]
    | none => h1
  let pairs := match response with
    | some r =>
      let p := mem.conversation_pairs ++ [⟨user_input, pyTakeStr 1000 r, now⟩]
      if p.length > MAX_CONVERSATION_PAIRS then pyLastN MAX_CONVERSATION_PAIRS p
      else p
    | none => mem.conversation_pairs
  let h3 := if h2.length > MAX_HISTORY_LENGTH then pyLastN MAX_HISTORY_LENGTH h2
    else h2
  { mem with
    history := h3
    conversation_pairs := pairs
    last_response := match response with
      | some r => r
      | none => mem.last_response
    updated_at := now }

/-- The history entries one `add_to_history` call appends before eviction
(the user message, plus the 500-character-truncated assistant message when a
response is supplied). -/
def new_hist_entries (user_input : String) (response : Option String)
    (now : String) : List HistEntry :=
  HistEntry.userMsg now user_input ::
    (match response with
     | some r => [HistEntry.assistantMsg now (pyTakeStr 500 r)]
     | none => [])

/-- The conversation pairs one `add_to_history` call appends before
eviction. -/
def new_pair_entries (user_input : String) (response : Option String)
    (now : String) : List ConvPair :=
  match response with
  | some r => [⟨user_input, pyTakeStr 1000 r, now⟩]
  | none => []

/-- The direct history append performed by `agent_controller` in `app.py`
(lines 64–67): a raw `memory["history"].append(...)` with no cap. -/
def agent_history_append (mem : Memory) (user_input : String) (now : String) :
    Memory :=
  { mem with history := mem.history ++ [HistEntry.userMsg now user_input] }

/-- The multi-user persisted structure: the JSON file's top-level mapping
from user id to record, embedded as an association list. -/
def Store : Type := List (String × Memory)

/-- Dictionary lookup `all_memory.get(user_id, ...)`. -/
def storeGet (store : Store) (uid : String) : Option Memory :=
  match store with
  | [] => none
  | (k, v) :: rest => if k = uid then some v else storeGet rest uid

/-- Dictionary update `all_memory[user_id] = memory`. -/
def storeSet (store : Store) (uid : String) (mem : Memory) : Store :=
  (uid, mem) :: (List.filter (fun p => p.1 ≠ uid) store)

/-- `save_memory` from `backend/memory.py`: load the whole structure,
validate the record (`ensure_memory_structure`, which stamps `updated_at`),
store it under the user id, rewrite the file. -/
def save_memory (store : Store) (uid : String) (mem : Memory) (now : String) :
    Store :=
  storeSet store uid (ensure_memory_structure mem now)

/-- `load_memory` from `backend/memory.py`: read the structure, take the
user's record (the empty record when the user or the file is missing), and
pass it through `ensure_memory_structure`. -/
def load_memory (store : Store) (uid : String) (now : String) : Memory :=
  ensure_memory_structure ((storeGet store uid).getD {}) now

/-- `save_memory` from the plain `memory.py` module: store the record
verbatim, no validation pass. -/
def simple_save_memory (store : Store) (uid : String) (mem : Memory) : Store :=
  storeSet store uid mem

/-- `load_memory` from the plain `memory.py` module: return the stored
record verbatim (the empty record when absent). -/
def simple_load_memory (store : Store) (uid : String) : Memory :=
  (storeGet store uid).getD {}

/-! ## External Model Gateway (`llm.py`)

`query_llm` wraps the provider call in `try/except`, so in the embedding the
provider is an explicit function from the dispatched prompt to an outcome:
`ok` is a successful `response.text`, `fail` is any exception raised by the
transport or provider (its `str(e)` rendering).  `query_llm` itself is a
total function into `String` — the shape of the embedding expresses that no
exception escapes to the caller. -/

/-- Outcome of one provider dispatch inside `query_llm`'s `try` block. -/
inductive LLMOutcome where
  | ok (text : String)
  | fail (err : String)
deriving DecidableEq

/-- `SYSTEM_PROMPT` from `llm.py`. -/
def SYSTEM_PROMPT : String :=
  "\nYou are a Career AI Assistant.\n\nYou help ONLY with:\n- Jobs and internships\n- Resume and CV improvement\n- Backend / software / data / AI careers\n- Interview questions and preparation\n- Career skills and guidance\n\nRules:\n- Allow greetings like hello, hi\n- If a question is NOT related to careers or tech:\n  respond politely with:\n  \"I\x27m focused on career and technical guidance. \n   Please ask something related to jobs, resumes, or interviews.\"\n- Be concise and practical\n"

/-- The full prompt `query_llm` dispatches: system instruction prepended to
the caller's prompt. -/
def full_prompt (user_prompt : String) : String :=
  SYSTEM_PROMPT ++ "\n\nUser question:\n" ++ user_prompt

/-- `query_llm` from `llm.py`. -/
def query_llm (provider : String → LLMOutcome) (user_prompt : String) :
    String :=
  match provider (full_prompt user_prompt) with
  | .ok t => pyStrip t
  | .fail e => "⚠️ LLM error: " ++ e

/-! ## Prompt Template Library (`analytics.py`)

Each analytics function either returns a string directly (no gateway call)
or composes a prompt and returns `query_llm(prompt)`.  The two cases are the
two constructors of `AnalyticsResult`, which lets the theorems distinguish
"answered locally" from "dispatched to the gateway".  The functions read the
session via `load_memory()`; the loaded record is the `mem` argument. -/

/-- Result of an analytics function: either a string returned directly
without touching the network, or a gateway dispatch of the given prompt
(whose reply is what the Python function returns). -/
inductive AnalyticsResult where
  | text (s : String)
  | gateway (prompt : String)
deriving DecidableEq

/-- The fixed upload-prompt sentinel used by every resume-guarded analytics
function. -/
def uploadSentinel : String := "📄 Please upload your resume first."

/-- `analyze_resume_for_role` from `analytics.py`. -/
def analyze_resume_for_role (mem : Memory) (target_role : String) :
    AnalyticsResult :=
  if mem.resume_text = "" then .text uploadSentinel
  else .gateway
    ("\nYou are a senior technical recruiter.\n\nResume:\n" ++ mem.resume_text
      ++ "\n\nTarget Role:\n" ++ target_role
      ++ "\n\nTask:\n- Identify weak sections\n- Suggest concrete improvements\n- Mention missing skills or experience\n- Keep suggestions actionable\n\nOutput format:\n- Bullet points only\n- Clear and concise\n")

/-- `detect_skill_gaps` from `analytics.py`. -/
def detect_skill_gaps (mem : Memory) (job_description : String) :
    AnalyticsResult :=
  if mem.resume_text = "" then .text uploadSentinel
  else .gateway
    ("\nYou are an AI hiring analyst.\n\nResume:\n" ++ mem.resume_text
      ++ "\n\nJob Description:\n" ++ job_description
      ++ "\n\nTask:\n- Identify the TOP 3 missing or weak skills\n- Explain WHY each skill matters\n- Suggest HOW to learn or improve each skill\n\nRules:\n- No fluff\n- Career-focused\n- Practical advice\n")

/-- `calculate_resume_job_match` from `analytics.py`. -/
def calculate_resume_job_match (mem : Memory) (job_description : String) :
    AnalyticsResult :=
  if mem.resume_text = "" then .text uploadSentinel
  else .gateway
    ("\nYou are an ATS (Applicant Tracking System).\n\nResume:\n"
      ++ mem.resume_text ++ "\n\nJob Description:\n" ++ job_description
      ++ "\n\nTask:\n- Give a match percentage (0–100%)\n- Explain strengths\n- Explain gaps\n\nOutput format:\nMatch Percentage: XX%\nStrengths:\n- ...\nGaps:\n- ...\n")

/-- `reverse_job_matcher` from `analytics.py`. -/
def reverse_job_matcher (mem : Memory) : AnalyticsResult :=
  if mem.resume_text = "" then .text uploadSentinel
  else .gateway
    ("\nYou are a career strategist.\n\nResume:\n" ++ mem.resume_text
      ++ "\n\nTask:\n- Identify hidden strengths\n- Infer transferable skills\n- Suggest 3 alternative job roles the user\n  may not be actively searching for\n\nFor each role:\n- Why they are a good fit\n- What to improve to transition into it\n\nRules:\n- Do NOT repeat obvious roles\n- Focus on career growth\n")

/-- The STAR prompt `build_star_story` composes from the raw story. -/
def star_prompt (raw_story : String) : String :=
  "\nYou are an interview coach.\n\nUser\x27s raw story:\n" ++ raw_story
    ++ "\n\nTask:\n- Extract Situation\n- Extract Task\n- Extract Action\n- Extract Result\n\nThen generate:\n- A polished 30-second interview answer\n- Clear, confident, professional tone\n"

/-- `build_star_story` from `analytics.py`: no resume guard, always a
gateway dispatch of the STAR template applied to the raw story. -/
def build_star_story (raw_story : String) : AnalyticsResult :=
  .gateway (star_prompt raw_story)

/-- The prompt `company_specific_interview_questions` composes.  The leading
part up to and including the "Candidate resume (if available):" line is kept
as one parenthesised block so the resume text appears as a top-level
concatenation operand. -/
def company_prompt (company_context role resume_text : String) : String :=
  ("\nYou are a senior interviewer at the following company:\n\n"
      ++ company_context
      ++ "\n\nYou are interviewing a candidate for the role of " ++ role
      ++ ".\n\nCandidate resume (if available):\n")
    ++ resume_text
    ++ "\n\nGenerate:\n- 5 technical interview questions\n- 2 system design questions\n- 2 behavioral questions\n\nRules:\n- Questions only\n- No explanations\n- Company-specific context is REQUIRED\n"

/-- `company_specific_interview_questions` from `analytics.py`: reads
`memory.get("resume_text", "")` with no emptiness guard and always
dispatches to the gateway. -/
def company_specific_interview_questions (mem : Memory)
    (company_context role : String) : AnalyticsResult :=
  .gateway (company_prompt company_context role mem.resume_text)

/-! ## Heatmap Post-Processor (`analytics.py`, `resume_heatmap`)

`resume_heatmap` first applies the resume guard and composes the heatmap
prompt (`resume_heatmap_route`), then parses the gateway's pipe-delimited
reply (`heatmap_postprocess`).  Row parsing can raise `ValueError` in Python
(unpacking a line that splits into more than three fields), so the
post-processing functions live in `Except Unit`. -/

/-- The guarded routing stage of `resume_heatmap`: the upload sentinel when
no resume text is stored, otherwise the gateway dispatch of the heatmap
table prompt. -/
def resume_heatmap_route (mem : Memory) (jd_text : String) : AnalyticsResult :=
  if mem.resume_text = "" then .text uploadSentinel
  else .gateway
    ("\nYou are an ATS + career expert.\n\nCompare each resume section against the job description.\n\nResume:\n"
      ++ mem.resume_text ++ "\n\nJob Description:\n" ++ jd_text
      ++ "\n\nReturn output ONLY in this format:\n\nSection | Score | Explanation\n\nRules:\n- Score between 0 and 100\n- One section per line\n- No extra text\n")

/-- The leftmost match of the pattern `\d{1,3}` in a character list: at the
first digit position, up to three consecutive digits. -/
def firstDigitRun : List Char → Option (List Char)
  | [] => none
  | c :: cs =>
    if c.isDigit then some (((c :: cs).takeWhile Char.isDigit).take 3)
    else firstDigitRun cs

/-- Decimal value of a digit list (Python `int(match.group())`). -/
def digitsToNat (ds : List Char) : Nat :=
  ds.foldl (fun n c => 10 * n + (c.toNat - 48)) 0

/-- Score extraction in `resume_heatmap`'s row loop:
`re.search(r"\d{1,3}", score_text)`, defaulting to 0 with no match, then
`max(0, min(score, 100))`. -/
def parse_score (score_text : String) : Nat :=
  let score := match firstDigitRun score_text.data with
    | some ds => digitsToNat ds
    | none => 0
  max 0 (min score 100)

/-- The ten-segment bar: `"●" * (score // 10) + "○" * (10 - score // 10)`. -/
def heat_bar (score : Nat) : String :=
  String.mk (List.replicate (score / 10) '●'
    ++ List.replicate (10 - score / 10) '○')

/-- The three-tier verdict attached to a row's score. -/
def heat_verdict (score : Nat) : String :=
  if score ≥ 75 then "Strong match"
  else if score ≥ 40 then "Partial match"
  else "Weak match"

/-- The icon chosen alongside the verdict. -/
def heat_icon (score : Nat) : String :=
  if score ≥ 75 then "🟢"
  else if score ≥ 40 then "🟡"
  else "🔴"

/-- Model of Python `str.upper()` (ASCII). -/
def pyUpper (s : String) : String :=
  String.mk (s.data.map Char.toUpper)

/-- The rendered block for one accepted table row (`section` in the source
is `sectionName` here, `section` being a Lean keyword). -/
def render_row (sectionName score_text explanation : String) : String :=
  let score := parse_score score_text
  heat_icon score ++ " **" ++ pyUpper sectionName ++ "**\n"
    ++ heat_bar score ++ "  **" ++ toString score ++ "% — "
    ++ heat_verdict score ++ "**\n_" ++ explanation ++ "_\n"

/-- Processing of one line of the gateway reply: `none` when the line is
skipped (no separator, fewer than three fields, or a header/divider token),
`some rendered` for an accepted row.  A line with more than three fields
makes the Python three-way unpacking raise `ValueError`, modelled as
`.error ()`. -/
def heatmap_row (line : String) : Except Unit (Option String) :=
  if pyContains line "|" = false then .ok none
  else
    let parts := (pySplitOn line "|").map pyStrip
    if parts.length < 3 then .ok none
    else
      match parts with
      | [sectionName, score_text, explanation] =>
        if ["section", "score", "---"].contains (pyLower sectionName) then
          .ok none
        else .ok (some (render_row sectionName score_text explanation))
      | _ => .error ()

/-- The row loop of `resume_heatmap`: collect the rendered blocks of the
accepted rows, propagating the unpack error. -/
def heatmap_collect : List String → Except Unit (List String)
  | [] => .ok []
  | l :: ls => do
    let r ← heatmap_row l
    let rest ← heatmap_collect ls
    pure (match r with
      | some s => s :: rest
      | none => rest)

/-- The post-processing stage of `resume_heatmap` applied to the gateway
reply: the fixed failure notice when zero rows are accepted, otherwise the
header plus the newline-joined row blocks. -/
def heatmap_postprocess (result : String) : Except Unit String :=
  match heatmap_collect (result.splitOn "\n") with
  | .error e => .error e
  | .ok lines =>
    if lines.isEmpty then .ok "⚠️ Could not generate heatmap."
    else .ok ("📊 **Resume Heatmap vs Job Description**\n\n"
      ++ String.intercalate "\n" lines)

/-! ## Job Source Adapter (`backend/jobs.py`)

`LinkedInJobs.get_jobs` performs one HTTP fetch; the outcome of that fetch
(exception, status code, extracted card nodes) is the explicit
`FetchOutcome` argument.  Card parsing is embedded over a record of the
fields `_parse_card` reads from a card node. -/

/-- An ephemeral job listing (the dict `_parse_card` builds). -/
structure JobListing where
  title : String
  company : String
  location : String
  description : String
  url : String
  source : String
deriving DecidableEq

/-- The data `_parse_card` extracts from one HTML card node: each field is
`none` when the corresponding element / attribute is absent.  `title`,
`company` and `location` hold the raw element text (stripping happens in the
parser); `metadata` holds the metadata div's `get_text(" ", strip=True)`
rendering. -/
structure Card where
  title : Option String
  company : Option String
  location : Option String
  href : Option String
  metadata : Option String
deriving DecidableEq

/-- Leftmost match of `re.search(r"/jobs/view/(\d+)", href)`: scan for the
literal `/jobs/view/` followed by at least one digit and capture the digit
run. -/
def jobsViewIdAux : List Char → Option (List Char)
  | [] => none
  | c :: cs =>
    if isPrefixList "/jobs/view/".data (c :: cs) then
      let ds := ((c :: cs).drop 11).takeWhile Char.isDigit
      if ds.isEmpty then jobsViewIdAux cs else some ds
    else jobsViewIdAux cs

/-- String wrapper for the job-id search. -/
def jobsViewId (href : String) : Option String :=
  (jobsViewIdAux href.data).map String.mk

/-- Uppercase hexadecimal digit, as `urllib.parse.quote` emits. -/
def hexDigitChar (n : Nat) : Char :=
  if n < 10 then Char.ofNat (48 + n) else Char.ofNat (55 + n)

/-- UTF-8 encoding of one character, as the byte values `quote` percent
encodes. -/
def utf8Bytes (c : Char) : List Nat :=
  let n := c.toNat
  if n < 128 then [n]
  else if n < 2048 then [192 + n / 64, 128 + n % 64]
  else if n < 65536 then
    [224 + n / 4096, 128 + (n / 64) % 64, 128 + n % 64]
  else
    [240 + n / 262144, 128 + (n / 4096) % 64, 128 + (n / 64) % 64,
      128 + n % 64]

/-- Characters `urllib.parse.quote` leaves unescaped with its default
`safe="/"`: unreserved characters plus the slash. -/
def quoteSafe (c : Char) : Bool :=
  let n := c.toNat
  (65 ≤ n && n ≤ 90) || (97 ≤ n && n ≤ 122) || (48 ≤ n && n ≤ 57) ||
    c == '_' || c == '.' || c == '-' || c == '~' || c == '/'

/-- Model of `urllib.parse.quote(query)` with the default safe set. -/
def pyQuote (s : String) : String :=
  String.mk (s.data.flatMap (fun c =>
    if quoteSafe c then [c]
    else (utf8Bytes c).flatMap (fun b =>
      ['%', hexDigitChar (b / 16), hexDigitChar (b % 16)])))

/-- The application URL chosen by `_parse_card`'s fallback chain. -/
def card_url (c : Card) (title company : String) : String :=
  match c.href with
  | some href0 =>
    let href := if pyStartsWith href0 "/" then
        "https://www.linkedin.com" ++ href0
      else href0
    if pyContains href "currentJobId=" then href
    else
      match jobsViewId href with
      | some job_id =>
        "https://www.linkedin.com/jobs/search/?currentJobId=" ++ job_id
          ++ "&keywords=" ++ pyReplace title " " "%20" ++ "%20"
          ++ pyReplace company " " "%20"
      | none => href
  | none =>
    "https://www.linkedin.com/jobs/search/?keywords="
      ++ pyReplace (title ++ " " ++ company) " " "%20"

/-- The pre-normalization description text of `_parse_card`: metadata text
with the location removed and stripped when the metadata div exists (with a
generic fallback when that leaves nothing), else a generic placeholder. -/
def card_raw_description (c : Card) (title company location : String) :
    String :=
  match c.metadata with
  | some metaText =>
    let meta_text := pyStrip (pyReplace metaText location "")
    if meta_text = "" then title ++ " at " ++ company else meta_text
  | none => title ++ " position at " ++ company

/-- `title_elem.text.strip() if title_elem else "Job"`. -/
def card_title (c : Card) : String :=
  match c.title with
  | some t => pyStrip t
  | none => "Job"

/-- `company_elem.text.strip() if company_elem else "Company"`. -/
def card_company (c : Card) : String :=
  match c.company with
  | some t => pyStrip t
  | none => "Company"

/-- `location_elem.text.strip() if location_elem else "Remote"`. -/
def card_location (c : Card) : String :=
  match c.location with
  | some t => pyStrip t
  | none => "Remote"

/-- The final description of `_parse_card`: the raw description
whitespace-normalized (`" ".join(description.split())`) and truncated to its
first 120 characters plus `"..."` when longer than 120. -/
def card_description (c : Card) : String :=
  let description0 := normalizeWS (card_raw_description c (card_title c)
    (card_company c) (card_location c))
  if description0.length > 120 then pyTakeStr 120 description0 ++ "..."
  else description0

/-- `_parse_card` from `backend/jobs.py`, on the extracted card fields. -/
def parse_card_core (c : Card) : JobListing :=
  { title := card_title c, company := card_company c,
    location := card_location c, description := card_description c,
    url := card_url c (card_title c) (card_company c),
    source := "LinkedIn" }

/-- `_parse_card` including its `try/except` wrapper, which returns `None`
on an exception.  Over the typed card record every access is total, so the
except branch is unreachable and the result is always `some`. -/
def parse_card (c : Card) : Option JobListing :=
  some (parse_card_core c)

/-- `LinkedInJobs._get_search_link`: the single synthetic fallback listing
whose URL is the pre-built LinkedIn search link for the query. -/
def get_search_link (query : String) : List JobListing :=
  let encoded := pyQuote query
  [{ title := "Search " ++ query ++ " jobs on LinkedIn",
     company := "LinkedIn",
     location := "Worldwide",
     description := "Click to search real jobs on LinkedIn",
     url := "https://www.linkedin.com/jobs/search/?keywords=" ++ encoded,
     source := "LinkedIn Search" }]

/-- Outcome of the HTTP fetch inside `get_jobs`: a raised exception, or a
response with its status code and the card nodes found in its HTML. -/
inductive FetchOutcome where
  | netError
  | response (status : Nat) (cards : List Card)
deriving DecidableEq

/-- `LinkedInJobs.get_jobs` from `backend/jobs.py`. -/
def get_jobs (outcome : FetchOutcome) (query : String) (limit : Nat) :
    List JobListing :=
  match outcome with
  | .netError => get_search_link query
  | .response status cards =>
    if status ≠ 200 then get_search_link query
    else
      let jobs := (cards.take limit).filterMap parse_card
      if jobs.isEmpty then get_search_link query else jobs

/-- The failure conditions of one fetch, as `get_jobs` reacts to them:
network exception, non-200 status, or zero successfully parsed cards. -/
def fetchFailed (outcome : FetchOutcome) (limit : Nat) : Prop :=
  match outcome with
  | .netError => True
  | .response status cards =>
    status ≠ 200 ∨ (cards.take limit).filterMap parse_card = []

/-! ## Conversation Routers (`backend/app.py` `chat_endpoint`, `app.py`
`agent_controller`)

The routing logic of a chat turn is a pure function of the message text and
the loaded session.  Its decision is a `ChatAction` — which reply is
produced or which external call is made — paired with the session's
`star_mode` value after the turn (the only mode flag the routers write). -/

/-- The path a router selects for one message.  `fixedReply` answers with a
constant string and performs no external call; every other constructor
names the external operation invoked: `starStory raw` is
`build_star_story(raw)` (a gateway dispatch of the STAR template),
`gatewayQuery p` is `query_llm(p)`, `analyzeForRole r` is
`analyze_resume_for_role(r)` (internally guarded), `skillsJobSearch` /
`generalJobSearch` are the job-site fetches. -/
inductive ChatAction where
  | fixedReply (text : String)
  | starStory (raw : String)
  | gatewayQuery (prompt : String)
  | analyzeForRole (role : String)
  | skillsJobSearch (resume role : String)
  | generalJobSearch (query : String)
deriving DecidableEq

/-- The backend router's greeting set. -/
def backend_greetings : List String := ["hi", "hello", "hey", "greetings"]

/-- The backend router's greeting reply. -/
def backend_greeting_reply : String :=
  "👋 Hello! I\x27m your Career AI Assistant. How can I help with your career today?"

/-- The backend router's STAR-activation reply. -/
def backend_star_reply : String :=
  "📝 I\x27ll help you create a STAR interview answer. Please describe your experience or situation."

/-- The backend router's upload notice for resume-context questions without
an uploaded resume. -/
def backend_upload_notice : String :=
  "📄 Please upload your resume first using the upload button on the left."

/-- The resume-context markers of the backend router. -/
def resume_markers : List String :=
  ["based on my resume", "from my resume", "my resume",
    "according to my resume"]

/-- The job keywords of the backend router. -/
def job_keywords : List String :=
  ["job", "jobs", "internship", "intern", "position", "opening", "vacancy"]

/-- The routing logic of `chat_endpoint` in `backend/app.py` (lines
115–166): the selected action together with the `star_mode` value after the
turn. -/
def chat_route (user_input : String) (mem : Memory) : ChatAction × Bool :=
  let text := pyStrip (pyLower user_input)
  if backend_greetings.contains text then
    (.fixedReply backend_greeting_reply, mem.star_mode)
  else if mem.star_mode then
    (.starStory user_input, false)
  else if pyContains text "star" || pyContains text "behavioral"
      || pyContains text "interview story" then
    (.fixedReply backend_star_reply, true)
  else if resume_markers.any (fun k => pyContains text k) then
    if mem.resume_uploaded = false then
      (.fixedReply backend_upload_notice, mem.star_mode)
    else if pyContains text "job" || pyContains text "jobs"
        || pyContains text "position" || pyContains text "role" then
      (.skillsJobSearch mem.resume_text "Software Engineer", mem.star_mode)
    else if pyContains text "improve" || pyContains text "feedback"
        || pyContains text "better" then
      (.analyzeForRole "Software Engineer", mem.star_mode)
    else if pyContains text "interview" && pyContains text "question" then
      (.gatewayQuery ("Generate interview questions based on this resume:\n"
        ++ pyTakeStr 1000 mem.resume_text), mem.star_mode)
    else
      (.gatewayQuery ("Based on this resume:\n"
        ++ pyTakeStr 1000 mem.resume_text ++ "\n\nQuestion: " ++ user_input),
        mem.star_mode)
  else if job_keywords.any (fun k => pyContains text k) then
    if mem.resume_uploaded && (pyContains text "suitable"
        || pyContains text "for me" || pyContains text "matching"
        || pyContains text "fit") then
      (.skillsJobSearch mem.resume_text "Software Engineer", mem.star_mode)
    else
      (.generalJobSearch user_input, mem.star_mode)
  else
    (.gatewayQuery user_input, mem.star_mode)

/-- The Gradio router's greeting reply. -/
def agent_greeting_reply : String :=
  "Hello 👋 How can I help you with your career today?"

/-- The Gradio router's STAR-activation reply. -/
def agent_star_reply : String :=
  "Great 👍\n\nPlease describe your experience or project in your own words.\nI’ll convert it into a STAR interview answer."

/-- The ad hoc interview-question prompt `agent_controller` builds (the
indentation of the Python triple-quoted literal is part of the string). -/
def agent_interview_prompt (user_input : String) : String :=
  "\n        You are a technical interviewer.\n\n        Generate 5 interview questions for:\n        "
    ++ user_input
    ++ "\n\n        Rules:\n        - Questions only\n        - No explanations\n        "

/-- The routing logic of `agent_controller` in `app.py` (lines 69–121). -/
def agent_route (user_input : String) (mem : Memory) : ChatAction × Bool :=
  let text := pyStrip (pyLower user_input)
  if ["hi", "hello", "hey"].contains text then
    (.fixedReply agent_greeting_reply, mem.star_mode)
  else if mem.star_mode then
    (.starStory user_input, false)
  else if pyContains text "star" || pyContains text "behavioral" then
    (.fixedReply agent_star_reply, true)
  else if pyContains text "improve" && pyContains text "resume" then
    (.analyzeForRole "Backend Engineer", mem.star_mode)
  else if pyContains text "interview" && pyContains text "question" then
    (.gatewayQuery (agent_interview_prompt user_input), mem.star_mode)
  else if ["job", "jobs", "internship", "intern"].any
      (fun k => pyContains text k) then
    (.generalJobSearch user_input, mem.star_mode)
  else
    (.gatewayQuery user_input, mem.star_mode)

/-! ## Auxiliary concrete data for the theorems -/

/-- Iterated `add_to_history` calls; each operation carries the user input,
the optional assistant response and the call's timestamp. -/
def apply_adds (ops : List (String × Option String × String))
    (mem : Memory) : Memory :=
  ops.foldl (fun m op => add_to_history m op.1 op.2.1 op.2.2) mem

/-- A session whose history already holds exactly 50 entries. -/
def mem_with_50 : Memory :=
  { history := List.replicate 50 (HistEntry.userMsg "t" "m") }

/-- A session record carrying an old `updated_at` stamp. -/
def c8_record : Memory := { updated_at := "2024-01-01T00:00:00" }

/-- A card whose metadata text is a single 130-character word. -/
def long_meta_card : Card :=
  { title := none, company := none, location := none, href := none,
    metadata := some (String.mk (List.replicate 130 'a')) }

/-- A card whose metadata text is the two-word string "a b". -/
def small_meta_card : Card :=
  { title := none, company := none, location := none, href := none,
    metadata := some "a b" }

/-! ## Shared helper lemmas -/

theorem isPrefixList_self_append (a b : List Char) :
    isPrefixList a (a ++ b) = true := by
  induction a with
  | nil => rfl
  | cons c cs ih => simp [isPrefixList, ih]

theorem isInfixList_append_middle (a m b : List Char) :
    isInfixList m (a ++ m ++ b) = true := by
  induction a with
  | nil =>
    cases m with
    | nil => cases b <;> simp [isInfixList, isPrefixList]
    | cons c cs =>
      have h := isPrefixList_self_append (c :: cs) b
      simp only [List.cons_append] at h
      simp [isInfixList]
      exact Or.inl h
  | cons c cs ih =>
    simp [isInfixList]
    exact Or.inr (by simpa [List.append_assoc] using ih)

theorem string_data_append (a b : String) :
    (a ++ b).data = a.data ++ b.data := rfl

theorem pyContains_append_middle (a b c : String) :
    pyContains (a ++ b ++ c) b = true := by
  show isInfixList b.data (a ++ b ++ c).data = true
  rw [string_data_append, string_data_append]
  exact isInfixList_append_middle a.data b.data c.data

theorem pyStartsWith_append (a b : String) :
    pyStartsWith (a ++ b) a = true := by
  show isPrefixList a.data (a ++ b).data = true
  rw [string_data_append]
  exact isPrefixList_self_append _ _

theorem pyEndsWith_append (a b : String) :
    pyEndsWith (a ++ b) b = true := by
  show isPrefixList b.data.reverse (a ++ b).data.reverse = true
  rw [string_data_append, List.reverse_append]
  exact isPrefixList_self_append _ _

theorem firstDigitRun_eq_none (l : List Char)
    (h : l.all (fun c => !c.isDigit) = true) : firstDigitRun l = none := by
  induction l with
  | nil => rfl
  | cons c cs ih =>
    simp only [List.all_cons, Bool.and_eq_true, Bool.not_eq_true'] at h
    simp [firstDigitRun, h.1, ih h.2]

/-! ## Claim theorems -/

/-- C3: in `resume_heatmap`'s row parsing the score is the value of the
first run of one to three digits of the score field, defaulting to 0 with no
digit, clamped into [0,100]: it never exceeds 100, a digit-free field yields
0, the field "150" yields exactly 100 and the field "abc" yields exactly
0. -/
theorem parse_score_clamped :
    (∀ s : String, parse_score s ≤ 100) ∧
    (∀ s : String, s.data.all (fun c => !c.isDigit) = true →
      parse_score s = 0) ∧
    parse_score "150" = 100 ∧
    parse_score "abc" = 0 := by
  refine ⟨?_, ?_, by decide, by decide⟩
  · intro s
    have h : ∀ v : Nat, max 0 (min v 100) ≤ 100 := fun v => by omega
    exact h _
  · intro s hs
    unfold parse_score
    rw [firstDigitRun_eq_none s.data hs]
    simp

/-- C3 witness: a concrete digit-free score field evaluates to score 0. -/
theorem parse_score_clamped_witness : parse_score "nope" = 0 :=
  parse_score_clamped.2.1 "nope" (by decide)

/-- C4: for a clamped score `s ≤ 100` the rendered bar holds exactly
`s / 10` filled segments and `10 - s / 10` empty segments (ten in total),
and the verdict is "Strong match" iff `s ≥ 75`, "Partial match" iff
`40 ≤ s < 75` and "Weak match" iff `s < 40`; in particular score 75 renders
seven filled plus three empty segments with verdict "Strong match", score
40 yields "Partial match" and score 39 yields "Weak match". -/
theorem heat_bar_verdict_spec :
    (∀ s : Nat, s ≤ 100 →
      (heat_bar s).data.count '●' = s / 10 ∧
      (heat_bar s).data.count '○' = 10 - s / 10 ∧
      (heat_bar s).length = 10) ∧
    (∀ s : Nat,
      (heat_verdict s = "Strong match" ↔ 75 ≤ s) ∧
      (heat_verdict s = "Partial match" ↔ 40 ≤ s ∧ s < 75) ∧
      (heat_verdict s = "Weak match" ↔ s < 40)) ∧
    heat_bar 75 = "●●●●●●●○○○" ∧
    heat_verdict 75 = "Strong match" ∧
    heat_verdict 40 = "Partial match" ∧
    heat_verdict 39 = "Weak match" := by
  refine ⟨?_, ?_, by decide, by decide, by decide, by decide⟩
  · intro s hs
    have h10 : s / 10 ≤ 10 := by
      calc s / 10 ≤ 100 / 10 := Nat.div_le_div_right hs
        _ = 10 := by norm_num
    refine ⟨?_, ?_, ?_⟩
    · simp [heat_bar, List.count_append, List.count_replicate]
    · simp [heat_bar, List.count_append, List.count_replicate]
    · simp only [heat_bar, String.length]
      simp [List.length_append, List.length_replicate]
      omega
  · intro s
    unfold heat_verdict
    split_ifs with h1 h2 <;>
      refine ⟨?_, ?_, ?_⟩ <;> constructor <;> intro hh <;>
        first
          | rfl
          | omega
          | exact absurd hh (by decide)

/-- C4 witness: the bar and verdict properties instantiated at the boundary
score 75. -/
theorem heat_bar_verdict_spec_witness :
    (heat_bar 75).data.count '●' = 75 / 10 ∧ (heat_bar 75).length = 10 :=
  ⟨(heat_bar_verdict_spec.1 75 (by decide)).1,
    (heat_bar_verdict_spec.1 75 (by decide)).2.2⟩

/-- C5: whenever the live fetch fails — network exception, non-200 status,
or zero successfully parsed cards — `get_jobs` returns exactly the one
synthetic listing of `_get_search_link`, whose URL is the deterministic
LinkedIn search link obtained by URL-encoding the query; the caller never
receives an empty sequence on failure and equal queries yield equal fallback
URLs. -/
theorem job_search_fallback (query : String) (outcome : FetchOutcome)
    (h : fetchFailed outcome 5) :
    get_jobs outcome query 5 = get_search_link query ∧
    (get_jobs outcome query 5).length = 1 ∧
    ∀ j ∈ get_jobs outcome query 5,
      j.url = "https://www.linkedin.com/jobs/search/?keywords="
        ++ pyQuote query := by
  have hfall : get_jobs outcome query 5 = get_search_link query := by
    cases outcome with
    | netError => rfl
    | response status cards =>
      unfold fetchFailed at h
      unfold get_jobs
      rcases h with h200 | hzero
      · simp [h200]
      · by_cases hs : status = 200
        · simp [hs, hzero]
        · simp [hs]
  refine ⟨hfall, ?_, ?_⟩
  · rw [hfall]; rfl
  · rw [hfall]
    intro j hj
    simp [get_search_link] at hj
    rw [hj]

/-- C5 witness: a concrete failed fetch for the query "python dev" yields
the single fallback listing with the URL-encoded search link. -/
theorem job_search_fallback_witness :
    get_jobs FetchOutcome.netError "python dev" 5 =
      get_search_link "python dev" ∧
    (get_jobs FetchOutcome.netError "python dev" 5).length = 1 ∧
    (get_jobs FetchOutcome.netError "python dev" 5).map JobListing.url =
      ["https://www.linkedin.com/jobs/search/?keywords=python%20dev"] := by
  have h := job_search_fallback "python dev" FetchOutcome.netError trivial
  exact ⟨h.1, h.2.1, by decide⟩

/-- C6: `query_llm` is a total function into strings — the embedding of the
`try/except` wrapper from which no exception escapes to the caller — and on
any provider failure it returns the warning-marker string embedding the
failure detail. -/
theorem query_llm_never_raises :
    ∀ (provider : String → LLMOutcome) (p : String),
      (∃ t, provider (full_prompt p) = .ok t ∧
        query_llm provider p = pyStrip t) ∨
      (∃ e, provider (full_prompt p) = .fail e ∧
        query_llm provider p = "⚠️ LLM error: " ++ e ∧
        pyStartsWith (query_llm provider p) "⚠️" = true ∧
        pyContains (query_llm provider p) e = true) := by
  intro provider p
  unfold query_llm
  cases h : provider (full_prompt p) with
  | ok t => exact Or.inl ⟨t, rfl, rfl⟩
  | fail e =>
    refine Or.inr ⟨e, rfl, rfl, ?_, ?_⟩
    · show isPrefixList "⚠️".data ("⚠️ LLM error: " ++ e).data = true
      rw [string_data_append,
        show ("⚠️ LLM error: ").data = "⚠️".data ++ " LLM error: ".data
          from rfl,
        List.append_assoc]
      exact isPrefixList_self_append _ _
    · show isInfixList e.data ("⚠️ LLM error: " ++ e).data = true
      rw [string_data_append]
      have him := isInfixList_append_middle ("⚠️ LLM error: ").data e.data []
      rwa [List.append_nil] at him

/-- C6 witness: a provider that always fails with detail "boom" makes
`query_llm` return the concrete warning string. -/
theorem query_llm_never_raises_witness :
    query_llm (fun _ => LLMOutcome.fail "boom") "hello" =
      "⚠️ LLM error: boom" := by
  rcases query_llm_never_raises (fun _ => LLMOutcome.fail "boom") "hello" with
    ⟨t, ht, _⟩ | ⟨e, he, heq, _, _⟩
  · exact absurd ht (by simp)
  · have he' : "boom" = e := by injection he
    subst he'
    exact heq

/-- C10: `company_specific_interview_questions` never enforces the resume
precondition: for every session — also with empty stored resume text — it
dispatches the company prompt embedding the stored resume text to the
gateway, and it never returns a direct string (in particular never the
upload sentinel). -/
theorem company_questions_skip_resume_guard :
    ∀ (mem : Memory) (company_context role : String),
      (∃ p, company_specific_interview_questions mem company_context role =
          .gateway p ∧ pyContains p mem.resume_text = true) ∧
      (∀ s, company_specific_interview_questions mem company_context role ≠
        AnalyticsResult.text s) := by
  intro mem company_context role
  constructor
  · refine ⟨company_prompt company_context role mem.resume_text, rfl, ?_⟩
    unfold company_prompt
    exact pyContains_append_middle _ _ _
  · intro s hcontra
    exact AnalyticsResult.noConfusion hcontra

/-- C10 witness: on a fresh session with empty resume text the function
still does not answer with the upload sentinel. -/
theorem company_questions_skip_resume_guard_witness :
    company_specific_interview_questions {} "Acme Corp" "Backend Engineer" ≠
      AnalyticsResult.text uploadSentinel :=
  (company_questions_skip_resume_guard {} "Acme Corp" "Backend Engineer").2
    uploadSentinel

/-- C1 counterexample: with `star_mode` set, a message whose trimmed
lowercasing is the greeting "hi" is answered by the greeting branch in both
routers — it is not consumed as STAR story content and `star_mode` stays
true — refuting "regardless of the message content". -/
theorem star_mode_greeting_counterexample :
    chat_route "hi" { star_mode := true } =
      (ChatAction.fixedReply backend_greeting_reply, true) ∧
    agent_route "hi" { star_mode := true } =
      (ChatAction.fixedReply agent_greeting_reply, true) ∧
    chat_route "hi" { star_mode := true } ≠
      (ChatAction.starStory "hi", false) := by
  refine ⟨by decide, by decide, by decide⟩

/-- C1 (amended): unless the lowercased, trimmed message is exactly one of
the router's greetings, a session with `star_mode = true` has its very next
routed message consumed as raw STAR story content (the STAR template path)
with `star_mode` reset to false — in both routers, even when the message
contains job keywords. -/
theorem star_mode_consumes_next_message :
    (∀ (input : String) (mem : Memory), mem.star_mode = true →
      backend_greetings.contains (pyStrip (pyLower input)) = false →
      chat_route input mem = (ChatAction.starStory input, false)) ∧
    (∀ (input : String) (mem : Memory), mem.star_mode = true →
      (["hi", "hello", "hey"] : List String).contains
        (pyStrip (pyLower input)) = false →
      agent_route input mem = (ChatAction.starStory input, false)) := by
  constructor
  · intro input mem hstar hgreet
    simp at hgreet
    simp [chat_route, hgreet, hstar]
  · intro input mem hstar hgreet
    simp at hgreet
    simp [agent_route, hgreet, hstar]

/-- C1 witness: in STAR mode the message "find me a job" — which contains a
job keyword — is still consumed as story content with the flag cleared, in
both routers. -/
theorem star_mode_consumes_next_message_witness :
    chat_route "find me a job" { star_mode := true } =
      (ChatAction.starStory "find me a job", false) ∧
    agent_route "find me a job" { star_mode := true } =
      (ChatAction.starStory "find me a job", false) :=
  ⟨star_mode_consumes_next_message.1 "find me a job" { star_mode := true }
      rfl (by decide),
    star_mode_consumes_next_message.2 "find me a job" { star_mode := true }
      rfl (by decide)⟩

/-- C2 counterexample: a session whose `resume_uploaded` flag is true while
the stored resume text is empty (reachable by uploading a file whose
extraction yields empty text) drives the backend resume-context branch into
a gateway dispatch embedding the empty resume — not the upload notice —
although no resume text is stored. -/
theorem resume_guard_counterexample :
    chat_route "based on my resume what should i do"
        { resume_uploaded := true } =
      (ChatAction.gatewayQuery
        "Based on this resume:\n\n\nQuestion: based on my resume what should i do",
        false) ∧
    (chat_route "based on my resume what should i do"
        { resume_uploaded := true }).1 ≠
      ChatAction.fixedReply backend_upload_notice := by
  refine ⟨by decide, by decide⟩

/-- C2 (amended): every resume-dependent analytics operation guards on the
stored resume text itself — empty text yields the fixed upload sentinel and
no gateway dispatch — while the backend resume-context router branch guards
on the `resume_uploaded` flag: whenever that flag is false the branch
returns the (longer) upload notice and performs no external call. -/
theorem resume_guard_amended :
    (∀ (mem : Memory) (role : String), mem.resume_text = "" →
      analyze_resume_for_role mem role = .text uploadSentinel) ∧
    (∀ (mem : Memory) (jd : String), mem.resume_text = "" →
      detect_skill_gaps mem jd = .text uploadSentinel) ∧
    (∀ (mem : Memory) (jd : String), mem.resume_text = "" →
      calculate_resume_job_match mem jd = .text uploadSentinel) ∧
    (∀ (mem : Memory), mem.resume_text = "" →
      reverse_job_matcher mem = .text uploadSentinel) ∧
    (∀ (mem : Memory) (jd : String), mem.resume_text = "" →
      resume_heatmap_route mem jd = .text uploadSentinel) ∧
    (∀ (input : String) (mem : Memory),
      backend_greetings.contains (pyStrip (pyLower input)) = false →
      mem.star_mode = false →
      (pyContains (pyStrip (pyLower input)) "star"
        || pyContains (pyStrip (pyLower input)) "behavioral"
        || pyContains (pyStrip (pyLower input)) "interview story") = false →
      resume_markers.any
        (fun k => pyContains (pyStrip (pyLower input)) k) = true →
      mem.resume_uploaded = false →
      chat_route input mem =
        (ChatAction.fixedReply backend_upload_notice, false)) := by
  refine ⟨?_, ?_, ?_, ?_, ?_, ?_⟩
  · intro mem role h
    simp [analyze_resume_for_role, h]
  · intro mem jd h
    simp [detect_skill_gaps, h]
  · intro mem jd h
    simp [calculate_resume_job_match, h]
  · intro mem h
    simp [reverse_job_matcher, h]
  · intro mem jd h
    simp [resume_heatmap_route, h]
  · intro input mem hgreet hstar hkw hmark hupload
    simp at hgreet
    simp [chat_route, hgreet, hstar, hkw, hmark, hupload]

/-- C2 witness: the message "my resume" on a fresh session (no resume) is
answered by the fixed upload notice. -/
theorem resume_guard_amended_witness :
    chat_route "my resume" ({} : Memory) =
      (ChatAction.fixedReply backend_upload_notice, false) :=
  resume_guard_amended.2.2.2.2.2 "my resume" {} (by decide) rfl (by decide)
    (by decide) rfl

theorem length_pyLastN {α : Type} (n : Nat) (l : List α) :
    (pyLastN n l).length = l.length - (l.length - n) := by
  simp [pyLastN]

theorem pyLastN_suffix {α : Type} (n : Nat) (l : List α) :
    pyLastN n l <:+ l :=
  List.drop_suffix _ _

theorem add_to_history_history_le (mem : Memory) (u : String)
    (r : Option String) (t : String) :
    (add_to_history mem u r t).history.length ≤ 50 := by
  unfold add_to_history
  cases r <;>
    simp only [] <;> split_ifs with h <;>
      simp_all [length_pyLastN, MAX_HISTORY_LENGTH] <;> omega

theorem add_to_history_pairs_le (mem : Memory) (u : String)
    (r : Option String) (t : String)
    (h : mem.conversation_pairs.length ≤ 20) :
    (add_to_history mem u r t).conversation_pairs.length ≤ 20 := by
  unfold add_to_history
  cases r with
  | none => exact h
  | some rr =>
    simp only []
    split_ifs with h1
    · simp [length_pyLastN, MAX_CONVERSATION_PAIRS]
      omega
    · simp_all [MAX_CONVERSATION_PAIRS]

theorem add_to_history_history_suffix (mem : Memory) (u : String)
    (r : Option String) (t : String) :
    (add_to_history mem u r t).history <:+
      mem.history ++ new_hist_entries u r t := by
  unfold add_to_history new_hist_entries
  cases r <;> simp only [] <;> split_ifs with h
  · exact (pyLastN_suffix _ _).trans (by simp)
  · simp
  · refine (pyLastN_suffix _ _).trans ?_
    simp [List.append_assoc]
  · simp [List.append_assoc]

theorem add_to_history_pairs_suffix (mem : Memory) (u : String)
    (r : Option String) (t : String) :
    (add_to_history mem u r t).conversation_pairs <:+
      mem.conversation_pairs ++ new_pair_entries u r t := by
  unfold add_to_history new_pair_entries
  cases r with
  | none => simp
  | some rr =>
    simp only []
    split_ifs with h1
    · exact pyLastN_suffix _ _
    · exact List.suffix_refl _

theorem apply_adds_invariant (ops : List (String × Option String × String))
    (mem : Memory) (h1 : mem.history.length ≤ 50)
    (h2 : mem.conversation_pairs.length ≤ 20) :
    (apply_adds ops mem).history.length ≤ 50 ∧
      (apply_adds ops mem).conversation_pairs.length ≤ 20 := by
  induction ops generalizing mem with
  | nil => exact ⟨h1, h2⟩
  | cons op ops ih =>
    exact ih (add_to_history mem op.1 op.2.1 op.2.2)
      (add_to_history_history_le mem op.1 op.2.1 op.2.2)
      (add_to_history_pairs_le mem op.1 op.2.1 op.2.2 h2)

/-- C7 counterexample: the Gradio `agent_controller` appends to history
directly (no cap): appended to a session already holding 50 entries, the
history reaches 51 entries, exceeding the claimed bound. -/
theorem agent_append_exceeds_cap :
    (agent_history_append mem_with_50 "one more message" "t1").history.length
      = 51 ∧
    ¬ (agent_history_append mem_with_50 "one more message"
        "t1").history.length ≤ 50 := by
  constructor
  · simp [agent_history_append, mem_with_50]
  · simp [agent_history_append, mem_with_50]

/-- C7 (amended): appends performed through `add_to_history` (the backend
router's path) keep history at ≤ 50 entries and conversation pairs at ≤ 20,
with FIFO eviction — after the call each list is a suffix of the old list
plus the new entries; the Gradio router's direct history append has no cap
(see the counterexample). -/
theorem add_to_history_caps :
    (∀ (t0 : String) (ops : List (String × Option String × String)),
      (apply_adds ops (create_empty_memory t0)).history.length ≤ 50 ∧
      (apply_adds ops
        (create_empty_memory t0)).conversation_pairs.length ≤ 20) ∧
    (∀ (mem : Memory) (u : String) (r : Option String) (t : String),
      (add_to_history mem u r t).history.length ≤ 50) ∧
    (∀ (mem : Memory) (u : String) (r : Option String) (t : String),
      mem.conversation_pairs.length ≤ 20 →
      (add_to_history mem u r t).conversation_pairs.length ≤ 20) ∧
    (∀ (mem : Memory) (u : String) (r : Option String) (t : String),
      (add_to_history mem u r t).history <:+
        mem.history ++ new_hist_entries u r t) ∧
    (∀ (mem : Memory) (u : String) (r : Option String) (t : String),
      (add_to_history mem u r t).conversation_pairs <:+
        mem.conversation_pairs ++ new_pair_entries u r t) :=
  ⟨fun t0 ops => apply_adds_invariant ops (create_empty_memory t0)
      (by simp [create_empty_memory]) (by simp [create_empty_memory]),
    add_to_history_history_le, add_to_history_pairs_le,
    add_to_history_history_suffix, add_to_history_pairs_suffix⟩

/-- C7 witness: one concrete `add_to_history` call on an empty-history
session keeps both caps. -/
theorem add_to_history_caps_witness :
    (add_to_history {} "question" (some "answer") "t1").history.length ≤ 50 ∧
    (add_to_history {} "question"
      (some "answer") "t1").conversation_pairs.length ≤ 20 :=
  ⟨add_to_history_caps.2.1 {} "question" (some "answer") "t1",
    add_to_history_caps.2.2.1 {} "question" (some "answer") "t1" (by decide)⟩

/-- C8 counterexample: the backend store's round trip is not the identity —
`ensure_memory_structure` refreshes `updated_at` during both save and load,
so a record saved with a stale `updated_at` comes back changed even when the
clock is frozen. -/
theorem save_load_roundtrip_counterexample :
    load_memory (save_memory [] "default" c8_record "2024-06-02T09:00:00")
      "default" "2024-06-02T09:00:00" ≠ c8_record := by
  decide

/-- C8 (amended): for a single writer, save-then-load returns the saved
record except for `updated_at`, which the backend module refreshes to the
load-time stamp; the plain `memory.py` module round-trips the record
exactly. -/
theorem save_load_roundtrip_amended :
    (∀ (store : Store) (uid : String) (mem : Memory),
      simple_load_memory (simple_save_memory store uid mem) uid = mem) ∧
    (∀ (store : Store) (uid : String) (mem : Memory) (t1 t2 : String),
      load_memory (save_memory store uid mem t1) uid t2 =
        { mem with updated_at := t2 }) := by
  constructor
  · intro store uid mem
    simp [simple_load_memory, simple_save_memory, storeSet, storeGet]
  · intro store uid mem t1 t2
    simp [load_memory, save_memory, storeSet, storeGet,
      ensure_memory_structure]

/-! Helper lemmas on whitespace normalization, used by the description
claim. -/

theorem pyWordsAux_words_good (l : List Char) :
    ∀ acc : List Char, (∀ c ∈ acc, c.isWhitespace = false) →
      ∀ w ∈ pyWordsAux acc l, w ≠ [] ∧ ∀ c ∈ w, c.isWhitespace = false := by
  induction l with
  | nil =>
    intro acc hacc w hw
    by_cases h : acc.isEmpty
    · simp [pyWordsAux, h] at hw
    · simp [pyWordsAux, h] at hw
      subst hw
      refine ⟨?_, ?_⟩
      · simp [List.isEmpty_iff] at h
        simpa using h
      · intro c hc
        exact hacc c (by simpa using hc)
  | cons c cs ih =>
    intro acc hacc w hw
    by_cases hws : c.isWhitespace
    · by_cases hemp : acc.isEmpty
      · simp [pyWordsAux, hws, hemp] at hw
        exact ih [] (by simp) w hw
      · simp [pyWordsAux, hws, hemp] at hw
        rcases hw with hw | hw
        · subst hw
          refine ⟨?_, ?_⟩
          · simp [List.isEmpty_iff] at hemp
            simpa using hemp
          · intro d hd
            exact hacc d (by simpa using hd)
        · exact ih [] (by simp) w hw
    · simp [pyWordsAux, hws] at hw
      refine ih (c :: acc) ?_ w hw
      intro d hd
      rcases List.mem_cons.mp hd with hd | hd
      · subst hd
        exact Bool.eq_false_iff.mpr hws
      · exact hacc d hd

theorem joinWords_space_only (ws : List (List Char))
    (h : ∀ w ∈ ws, ∀ c ∈ w, c.isWhitespace = false) :
    ∀ c ∈ joinWords ws, c.isWhitespace = true → c = ' ' := by
  induction ws with
  | nil => intro c hc; simp [joinWords] at hc
  | cons w ws ih =>
    cases ws with
    | nil =>
      intro c hc hcw
      simp [joinWords] at hc
      rw [h w (by simp) c hc] at hcw
      cases hcw
    | cons w2 ws2 =>
      intro c hc hcw
      rw [show joinWords (w :: w2 :: ws2) = w ++ ' ' :: joinWords (w2 :: ws2)
        from rfl] at hc
      rcases List.mem_append.mp hc with hcw1 | hcr
      · rw [h w (by simp) c hcw1] at hcw
        cases hcw
      · rcases List.mem_cons.mp hcr with hsp | hrest
        · exact hsp
        · exact ih (fun v hv => h v (by simp [hv])) c hrest hcw

theorem normalizeWS_space_only (s : String) :
    ∀ c ∈ (normalizeWS s).data, c.isWhitespace = true → c = ' ' := by
  intro c hc
  refine joinWords_space_only (pyWords s.data) ?_ c hc
  intro w hw
  exact (pyWordsAux_words_good s.data [] (by simp) w hw).2

set_option maxRecDepth 8192 in
/-- C9 counterexample: a card whose metadata is one 130-character word
yields a parsed listing whose description has 123 characters — the first
120 characters plus the three-character ellipsis — exceeding the claimed
120-character bound. -/
theorem description_exceeds_120 :
    (parse_card long_meta_card).map (fun j => j.description.length) =
      some 123 ∧ 123 > 120 := by
  refine ⟨by decide, by decide⟩

/-- C9 (amended): every parsed listing's description is
whitespace-normalized (its only whitespace characters are single spaces
introduced by the normalization) and has at most 123 characters: it is
either the normalized text of at most 120 characters, or — when the
normalized text is longer — exactly 123 characters ending in the
three-character ellipsis "...". -/
theorem job_description_truncation :
    ∀ c : Card,
      (parse_card_core c).description.length ≤ 123 ∧
      ((parse_card_core c).description.length ≤ 120 ∨
        ((parse_card_core c).description.length = 123 ∧
          pyEndsWith (parse_card_core c).description "..." = true)) ∧
      (∀ ch ∈ (parse_card_core c).description.data,
        ch.isWhitespace = true → ch = ' ') := by
  intro c
  have hdesc : (parse_card_core c).description = card_description c := rfl
  rw [hdesc]
  unfold card_description
  set n := normalizeWS (card_raw_description c (card_title c)
    (card_company c) (card_location c)) with hn
  by_cases h : n.length > 120
  · simp only [h, if_pos]
    have hlen : (pyTakeStr 120 n ++ "...").length = 123 := by
      show ((pyTakeStr 120 n).data ++ "...".data).length = 123
      simp [pyTakeStr]
      omega
    refine ⟨by omega, Or.inr ⟨hlen, pyEndsWith_append _ _⟩, ?_⟩
    intro ch hch hchw
    rw [string_data_append] at hch
    rcases List.mem_append.mp hch with hch | hch
    · have : ch ∈ n.data := List.take_subset _ _ (by simpa [pyTakeStr] using hch)
      exact normalizeWS_space_only _ ch this hchw
    · simp at hch
      subst hch
      cases hchw
  · simp only [h, if_neg, not_false_iff]
    refine ⟨by omega, Or.inl (by omega), ?_⟩
    exact normalizeWS_space_only _

/-- C9 witness: a concrete card whose metadata is "a b" yields a short,
untruncated description whose single whitespace character — obtained by
instantiating the theorem's normalization clause at the contained space —
is the plain space. -/
theorem job_description_truncation_witness :
    (parse_card_core small_meta_card).description.length ≤ 123 ∧
    (' ' : Char) = ' ' :=
  ⟨(job_description_truncation small_meta_card).1,
    (job_description_truncation small_meta_card).2.2 ' '
      (by decide) (by decide)⟩

/-- C8 witness: the plain-module round trip returns the concrete record
unchanged. -/
theorem save_load_roundtrip_amended_witness :
    simple_load_memory (simple_save_memory [] "default" c8_record)
      "default" = c8_record :=
  save_load_roundtrip_amended.1 [] "default" c8_record

end CareerAgent
